import Mathlib

/-!
Verification of the Comment Sentiment Analyzer (logistic-regression backend).

Shallow embedding of `src/backend/main.py` and `src/train.py`:

* The fitted scikit-learn `Pipeline` is modelled as a per-comment prediction
  function `String → Except String Nat` (vectorize + classify each row;
  `predict` on a batch is the row-wise traversal, so a failure on any row
  fails the whole call, and a successful call yields one label per input).
* Module-level server state (`sentiment_pipeline` plus incidental process
  state such as the log) is the structure `World`.
* External effects (the YouTube comments API, the NLTK corpus download,
  scikit-learn fitting, joblib serialization) are parameters of the model:
  the endpoint takes the fetch outcome as a function argument, training takes
  a `TrainEnv` describing which external steps succeed.
* Python truthiness tests (`if not sentiment_pipeline`, `if not video_id`,
  `if not comments`) are translated as the corresponding emptiness tests.
* The file system seen by the trainer is `FS := String → Option (List Nat)`
  (path to byte content); `joblib.dump` is a truncating in-place write, so a
  failing write leaves a prefix of the new bytes at the path.
-/

/-- The per-request sentiment dictionary built by the `/analyze` endpoint
(`sentiment_counts = {"positive": 0, "negative": 0}`). -/
structure SentimentTally where
  positive : Nat
  negative : Nat
  deriving DecidableEq

/-- One iteration of the tally loop of `analyze_video_comments`
(main.py lines 133-137): `pred == 1` bumps `positive`, anything else bumps
`negative`. -/
def tallyStep (acc : SentimentTally) (pred : Nat) : SentimentTally :=
  if pred = 1 then { acc with positive := acc.positive + 1 }
  else { acc with negative := acc.negative + 1 }

/-- The whole tally loop of main.py lines 129-137, starting from the zeroed
dictionary. -/
def tallyLoop (preds : List Nat) : SentimentTally :=
  preds.foldl tallyStep ⟨0, 0⟩

/-- `sentiment_pipeline.predict(comments)` (main.py line 132): each comment is
vectorized and classified independently; an error on any row aborts the call,
a success returns one label per comment, in order. -/
def pipelinePredict (model : String → Except String Nat) :
    List String → Except String (List Nat)
  | [] => .ok []
  | s :: rest =>
    match model s with
    | .error e => .error e
    | .ok l =>
      match pipelinePredict model rest with
      | .error e => .error e
      | .ok ls => .ok (l :: ls)

theorem foldl_tallyStep_sum (preds : List Nat) (acc : SentimentTally) :
    (preds.foldl tallyStep acc).positive + (preds.foldl tallyStep acc).negative
      = acc.positive + acc.negative + preds.length := by
  induction preds generalizing acc with
  | nil => simp
  | cons p rest ih =>
    simp only [List.foldl_cons, List.length_cons, ih]
    unfold tallyStep
    by_cases h : p = 1 <;> simp [h] <;> omega

theorem tallyLoop_sum (preds : List Nat) :
    (tallyLoop preds).positive + (tallyLoop preds).negative = preds.length := by
  unfold tallyLoop
  rw [foldl_tallyStep_sum]
  simp

theorem pipelinePredict_length (model : String → Except String Nat)
    (batch : List String) (preds : List Nat)
    (h : pipelinePredict model batch = .ok preds) :
    preds.length = batch.length := by
  induction batch generalizing preds with
  | nil =>
    unfold pipelinePredict at h
    cases h
    rfl
  | cons s rest ih =>
    unfold pipelinePredict at h
    cases hm : model s with
    | error e => rw [hm] at h; cases h
    | ok l =>
      rw [hm] at h
      cases hr : pipelinePredict model rest with
      | error e => rw [hr] at h; cases h
      | ok ls =>
        rw [hr] at h
        cases h
        simp [ih ls hr]

/-- Claim C1: for every non-empty inference batch of length n on which
prediction succeeds, the `/analyze` tally loop returns a `SentimentTally`
whose positive count plus negative count equals exactly n — every prediction
increments exactly one of the two counters. -/
theorem c1_tally_sums_to_batch_length (model : String → Except String Nat)
    (batch : List String) (preds : List Nat)
    (hne : batch ≠ [])
    (hok : pipelinePredict model batch = .ok preds) :
    (tallyLoop preds).positive + (tallyLoop preds).negative = batch.length := by
  rw [tallyLoop_sum]
  exact pipelinePredict_length model batch preds hok

/-!
## The video-id regex (main.py lines 91-94)

`extract_video_id` runs `re.search` with the pattern

  (?:https?://)? (?:www\.)?
  (?: youtube\.com/ (?: [^/\n\s]+/\S+/ | (?:v|e(?:mbed)?)/ | \S*?[?&]v= )
    | youtu\.be/ )
  ([a-zA-Z0-9_-]{11})

and returns group 1 (or None).  The matcher below replays this pattern with
Python backtracking semantics: each component maps a remainder to the list of
candidate remainders in the order the regex engine tries them (greedy
quantifiers longest-first, lazy shortest-first, alternatives left to right),
`re.search` scans start positions left to right, and the first overall success
yields the capture.  The whitespace class is modelled over its ASCII members.
-/

/-- The character class of the capture group, `[a-zA-Z0-9_-]`. -/
def isIdChar (c : Char) : Bool :=
  ('a' ≤ c && c ≤ 'z') || ('A' ≤ c && c ≤ 'Z') || ('0' ≤ c && c ≤ '9')
    || c = '_' || c = '-'

/-- ASCII members of the regex whitespace class. -/
def isWs (c : Char) : Bool :=
  c = ' ' || c = '\t' || c = '\n' || c = '\r' || c = '\x0b' || c = '\x0c'

def notWs (c : Char) : Bool := !isWs c

/-- `[^/\n\s]` (the `\n` is already whitespace). -/
def notSlashWs (c : Char) : Bool := !(c = '/') && !isWs c

/-- Match a literal prefix, returning the remainder. -/
def matchLit : List Char → List Char → Option (List Char)
  | [], s => some s
  | _, [] => none
  | c :: cs, d :: ds => if c = d then matchLit cs ds else none

/-- A literal as a backtracking component: zero or one candidate remainder. -/
def litRem (lit : String) (s : List Char) : List (List Char) :=
  match matchLit lit.toList s with
  | some r => [r]
  | none => []

/-- Length of the maximal run of characters satisfying `p`. -/
def greedyRun (p : Char → Bool) : List Char → Nat
  | [] => 0
  | c :: cs => if p c then greedyRun p cs + 1 else 0

/-- `p+` (greedy): candidate remainders, longest match first. -/
def plusGreedy (p : Char → Bool) (s : List Char) : List (List Char) :=
  (List.range (greedyRun p s)).map (fun i => s.drop (greedyRun p s - i))

/-- `p*?` (lazy): candidate remainders, shortest match first. -/
def starLazy (p : Char → Bool) (s : List Char) : List (List Char) :=
  (List.range (greedyRun p s + 1)).map (fun i => s.drop i)

/-- `(?:https?://)?` — `s?` greedy, then the group itself optional-greedy. -/
def schemeRem (s : List Char) : List (List Char) :=
  litRem "https://" s ++ litRem "http://" s ++ [s]

/-- `(?:www\.)?`. -/
def wwwRem (s : List Char) : List (List Char) :=
  litRem "www." s ++ [s]

/-- `[^/\n\s]+/\S+/` (channel-style paths). -/
def branchChannel (s : List Char) : List (List Char) :=
  (plusGreedy notSlashWs s).flatMap fun r1 =>
    (litRem "/" r1).flatMap fun r2 =>
      (plusGreedy notWs r2).flatMap fun r3 =>
        litRem "/" r3

/-- `(?:v|e(?:mbed)?)/` — alternatives in order `v`, `embed`, `e`. -/
def branchShort (s : List Char) : List (List Char) :=
  (litRem "v" s ++ litRem "embed" s ++ litRem "e" s).flatMap fun r =>
    litRem "/" r

/-- `\S*?[?&]v=` (watch URLs with a query string). -/
def branchQuery (s : List Char) : List (List Char) :=
  (starLazy notWs s).flatMap fun r =>
    match r with
    | [] => []
    | c :: rest => if c = '?' || c = '&' then litRem "v=" rest else []

/-- `youtube\.com/(?:...|...|...)|youtu\.be/`. -/
def hostRem (s : List Char) : List (List Char) :=
  ((litRem "youtube.com/" s).flatMap fun r =>
    branchChannel r ++ branchShort r ++ branchQuery r)
    ++ litRem "youtu.be/" s

/-- The capture group `([a-zA-Z0-9_-]{11})`: exactly 11 class characters,
no anchor after them. -/
def captureId (s : List Char) : Option (List Char) :=
  if (s.take 11).length = 11 && (s.take 11).all isIdChar then some (s.take 11)
  else none

/-- First candidate remainder on which the capture group succeeds. -/
def firstCapture : List (List Char) → Option (List Char)
  | [] => none
  | r :: rs =>
    match captureId r with
    | some t => some t
    | none => firstCapture rs

/-- Try the full pattern at one start position. -/
def tryAt (s : List Char) : Option (List Char) :=
  firstCapture ((schemeRem s).flatMap fun r1 => (wwwRem r1).flatMap hostRem)

/-- `re.search`: scan start positions left to right, first match wins. -/
def regexSearch : List Char → Option (List Char)
  | [] => tryAt []
  | c :: rest =>
    match tryAt (c :: rest) with
    | some t => some t
    | none => regexSearch rest

/-- `extract_video_id` (main.py lines 91-94): `match.group(1) if match else
None`. -/
def extract_video_id (url : String) : Option String :=
  (regexSearch url.toList).map fun t => ⟨t⟩

theorem captureId_shape (s t : List Char) (h : captureId s = some t) :
    t.length = 11 ∧ t.all isIdChar = true := by
  unfold captureId at h
  by_cases hc : (s.take 11).length = 11 && (s.take 11).all isIdChar
  · rw [if_pos hc] at h
    cases h
    simpa using hc
  · rw [if_neg hc] at h
    cases h

theorem firstCapture_shape (l : List (List Char)) (t : List Char)
    (h : firstCapture l = some t) : t.length = 11 ∧ t.all isIdChar = true := by
  induction l with
  | nil =>
    unfold firstCapture at h
    cases h
  | cons r rs ih =>
    unfold firstCapture at h
    cases hc : captureId r with
    | some u =>
      rw [hc] at h
      cases h
      exact captureId_shape r _ hc
    | none =>
      rw [hc] at h
      exact ih h

theorem regexSearch_shape (s t : List Char) (h : regexSearch s = some t) :
    t.length = 11 ∧ t.all isIdChar = true := by
  induction s with
  | nil =>
    unfold regexSearch at h
    exact firstCapture_shape _ _ h
  | cons c rest ih =>
    unfold regexSearch at h
    cases hc : tryAt (c :: rest) with
    | some u =>
      rw [hc] at h
      cases h
      exact firstCapture_shape _ _ hc
    | none =>
      rw [hc] at h
      exact ih h

theorem extract_video_id_shape (url : String) (v : String)
    (h : extract_video_id url = some v) :
    v.length = 11 ∧ v.toList.all isIdChar = true := by
  unfold extract_video_id at h
  cases hr : regexSearch url.toList with
  | none => rw [hr] at h; cases h
  | some t =>
    rw [hr] at h
    cases h
    have := regexSearch_shape _ _ hr
    exact ⟨this.1, this.2⟩

theorem extract_video_id_ne_empty (url : String) (v : String)
    (h : extract_video_id url = some v) : v ≠ "" := by
  intro hv
  have := (extract_video_id_shape url v h).1
  rw [hv] at this
  simp [String.length] at this

/-!
## The `/analyze` endpoint (main.py lines 96-142)
-/

/-- An `HTTPException(status_code=..., detail=...)` raised by the endpoint. -/
structure HErr where
  status : Nat
  detail : String
  deriving DecidableEq

/-- Outcome of the YouTube commentThreads call made inside
`get_video_comments` (main.py lines 97-106): either the comment texts, or the
`HttpError` whose content mentions `commentsDisabled`, or another `HttpError`,
or any other exception. -/
inductive FetchResult where
  | ok (comments : List String)
  | commentsDisabled
  | httpOther
  | otherException

/-- `get_video_comments` (main.py lines 96-113): translates the API outcome
into either the comment list or a typed `HTTPException`. -/
def get_video_comments (r : FetchResult) : Except HErr (List String) :=
  match r with
  | .ok comments => .ok comments
  | .commentsDisabled => .error ⟨403, "Comments are disabled for this video."⟩
  | .httpOther => .error ⟨500, "Failed to fetch comments. Check URL or API key."⟩
  | .otherException => .error ⟨500, "An internal server error occurred."⟩

/-- Module-level server state of main.py: the loaded pipeline
(`sentiment_pipeline`, which is `None` when unavailable) together with
incidental process state that inference must not depend on (the log, the
loaded API key). -/
structure World where
  sentiment_pipeline : Option (String → Except String Nat)
  logLines : List String
  api_key : String

/-- `analyze_video_comments` (main.py lines 116-142), with the comments API
passed in as the function `fetch` from video id to outcome.  The returned
`World` is the module state after the request: the endpoint never assigns the
module-level `sentiment_pipeline`, so it is passed through unchanged.  The
two `if` guards mirror Python truthiness: `if not video_id` is true for
`None` and for the empty string, `if not comments` for the empty list. -/
def analyze_video_comments (w : World) (fetch : String → FetchResult)
    (url : String) : World × Except HErr SentimentTally :=
  match w.sentiment_pipeline with
  | none => (w, .error ⟨503, "Sentiment model is not available."⟩)
  | some pipeline =>
    match extract_video_id url with
    | none => (w, .error ⟨400, "Invalid or unsupported YouTube URL."⟩)
    | some video_id =>
      if video_id = "" then
        (w, .error ⟨400, "Invalid or unsupported YouTube URL."⟩)
      else
        match get_video_comments (fetch video_id) with
        | .error e => (w, .error e)
        | .ok comments =>
          if comments = [] then (w, .ok ⟨0, 0⟩)
          else
            match pipelinePredict pipeline comments with
            | .error _ => (w, .error ⟨500, "Failed to analyze comments."⟩)
            | .ok preds => (w, .ok (tallyLoop preds))

theorem c1_witness :
    (["great", "awful"] : List String) ≠ [] ∧
    (tallyLoop [1, 0]).positive + (tallyLoop [1, 0]).negative
      = (["great", "awful"] : List String).length := by
  refine ⟨by decide, ?_⟩
  exact c1_tally_sums_to_batch_length
    (fun s => if s = "great" then .ok 1 else .ok 0)
    ["great", "awful"] [1, 0] (by decide) rfl

/-- Concrete URL used by witnesses; its video id is "dQw4w9WgXcQ". -/
def urlW : String := "https://youtu.be/dQw4w9WgXcQ"

/-- A concrete loaded pipeline that labels everything positive. -/
def pOne : String → Except String Nat := fun _ => .ok 1

/-- A concrete pipeline whose prediction always fails. -/
def pBoom : String → Except String Nat := fun _ => .error "bad input"

/-- Claim C2: for a fixed loaded Pipeline artifact, classification is
deterministic — the endpoint's answer depends only on the pipeline reference
(and the request data), not on any other module state such as the log or the
API key, and two runs with the same pipeline on the same input agree. -/
theorem c2_classify_deterministic (w₁ w₂ : World)
    (fetch : String → FetchResult) (url : String)
    (h : w₁.sentiment_pipeline = w₂.sentiment_pipeline) :
    (analyze_video_comments w₁ fetch url).2
      = (analyze_video_comments w₂ fetch url).2 := by
  unfold analyze_video_comments
  rw [h]
  cases w₂.sentiment_pipeline with
  | none => rfl
  | some p =>
    cases extract_video_id url with
    | none => rfl
    | some vid =>
      by_cases hv : vid = ""
      · simp [hv]
      · simp only [if_neg hv]
        cases get_video_comments (fetch vid) with
        | error e => rfl
        | ok comments =>
          by_cases hc : comments = []
          · simp [hc]
          · simp only [if_neg hc]
            cases pipelinePredict p comments <;> rfl

theorem c2_witness :
    (analyze_video_comments ⟨some pOne, ["started"], "key-a"⟩
        (fun _ => .ok ["nice video"]) urlW).2
      = (analyze_video_comments ⟨some pOne, [], "key-b"⟩
        (fun _ => .ok ["nice video"]) urlW).2 :=
  c2_classify_deterministic ⟨some pOne, ["started"], "key-a"⟩
    ⟨some pOne, [], "key-b"⟩ (fun _ => .ok ["nice video"]) urlW rfl

/-- Claim C3: whenever `sentiment_pipeline` is `None`, every `/analyze` call
fails with HTTP 503 before doing anything else — for every URL and every
behaviour of the comments API — and the module state is untouched; the
failure is a typed `HTTPException`, not an unhandled error. -/
theorem c3_unavailable_503 (w : World) (fetch : String → FetchResult)
    (url : String) (h : w.sentiment_pipeline = none) :
    analyze_video_comments w fetch url
      = (w, .error ⟨503, "Sentiment model is not available."⟩) := by
  unfold analyze_video_comments
  rw [h]

theorem c3_witness :
    analyze_video_comments ⟨none, [], "key"⟩ (fun _ => .otherException) urlW
      = (⟨none, [], "key"⟩, .error ⟨503, "Sentiment model is not available."⟩) :=
  c3_unavailable_503 ⟨none, [], "key"⟩ (fun _ => .otherException) urlW rfl

/-- Claim C4: if the fetched batch of comments is empty, the endpoint returns
the `{positive: 0, negative: 0}` tally; the pipeline `p` is universally
quantified and absent from the conclusion, so `predict` is never consulted. -/
theorem c4_empty_batch_zero_tally (w : World) (fetch : String → FetchResult)
    (url vid : String) (p : String → Except String Nat)
    (hp : w.sentiment_pipeline = some p)
    (hv : extract_video_id url = some vid)
    (hf : fetch vid = .ok []) :
    (analyze_video_comments w fetch url).2 = .ok ⟨0, 0⟩ := by
  have hne := extract_video_id_ne_empty url vid hv
  simp [analyze_video_comments, hp, hv, hne, hf, get_video_comments]

theorem c4_witness :
    (analyze_video_comments ⟨some pBoom, [], "key"⟩ (fun _ => .ok []) urlW).2
      = .ok ⟨0, 0⟩ :=
  c4_empty_batch_zero_tally ⟨some pBoom, [], "key"⟩ (fun _ => .ok [])
    urlW "dQw4w9WgXcQ" pBoom rfl (by decide) rfl

/-- Claim C6: any error raised during vectorization or prediction is caught
at the operation boundary and surfaced as the typed 500 `HTTPException`
"Failed to analyze comments."; nothing propagates past the endpoint uncaught
and the module state (in particular the pipeline reference) is unchanged. -/
theorem c6_inference_error_500 (w : World) (fetch : String → FetchResult)
    (url vid : String) (p : String → Except String Nat)
    (comments : List String) (e : String)
    (hp : w.sentiment_pipeline = some p)
    (hv : extract_video_id url = some vid)
    (hf : fetch vid = .ok comments)
    (hc : comments ≠ [])
    (he : pipelinePredict p comments = .error e) :
    analyze_video_comments w fetch url
      = (w, .error ⟨500, "Failed to analyze comments."⟩) := by
  have hne := extract_video_id_ne_empty url vid hv
  simp [analyze_video_comments, hp, hv, hne, hf, get_video_comments, hc, he]

theorem c6_witness :
    analyze_video_comments ⟨some pBoom, [], "key"⟩
        (fun _ => .ok ["first comment"]) urlW
      = (⟨some pBoom, [], "key"⟩, .error ⟨500, "Failed to analyze comments."⟩) :=
  c6_inference_error_500 ⟨some pBoom, [], "key"⟩
    (fun _ => .ok ["first comment"]) urlW "dQw4w9WgXcQ" pBoom
    ["first comment"] "bad input" rfl (by decide) rfl (by decide) rfl

theorem analyze_no_400_when_id_found (w : World) (fetch : String → FetchResult)
    (url v : String) (p : String → Except String Nat)
    (hp : w.sentiment_pipeline = some p)
    (hv : extract_video_id url = some v) :
    (analyze_video_comments w fetch url).2
      ≠ .error ⟨400, "Invalid or unsupported YouTube URL."⟩ := by
  have hvne := extract_video_id_ne_empty url v hv
  unfold analyze_video_comments
  rw [hp, hv]
  simp only [if_neg hvne]
  cases hfr : fetch v with
  | ok comments =>
    by_cases hc : comments = [] <;>
      simp [get_video_comments, hc] <;>
      cases pipelinePredict p comments <;> simp
  | commentsDisabled => simp [get_video_comments]
  | httpOther => simp [get_video_comments]
  | otherException => simp [get_video_comments]

/-- Claim C10: every result of `extract_video_id` is either `None` or a
string of exactly 11 characters from `[A-Za-z0-9_-]`; and, when the model is
available, the `/analyze` endpoint fails with HTTP 400 exactly when
`extract_video_id` returns `None`. -/
theorem c10_video_id_shape_and_400 (url : String) :
    (∀ v, extract_video_id url = some v →
      v.length = 11 ∧ v.toList.all isIdChar = true) ∧
    (∀ (w : World) (fetch : String → FetchResult)
      (p : String → Except String Nat),
      w.sentiment_pipeline = some p →
      ((analyze_video_comments w fetch url).2
          = .error ⟨400, "Invalid or unsupported YouTube URL."⟩
        ↔ extract_video_id url = none)) := by
  refine ⟨fun v hv => extract_video_id_shape url v hv, ?_⟩
  intro w fetch p hp
  constructor
  · intro h400
    cases hv : extract_video_id url with
    | none => rfl
    | some v => exact absurd h400 (analyze_no_400_when_id_found w fetch url v p hp hv)
  · intro hnone
    simp [analyze_video_comments, hp, hnone]

theorem c10_witness :
    ((String.length "dQw4w9WgXcQ" = 11
        ∧ "dQw4w9WgXcQ".toList.all isIdChar = true)
      ∧ ((analyze_video_comments ⟨some pOne, [], "key"⟩ (fun _ => .ok []) "???").2
          = .error ⟨400, "Invalid or unsupported YouTube URL."⟩
        ↔ extract_video_id "???" = none)) :=
  ⟨(c10_video_id_shape_and_400 urlW).1 "dQw4w9WgXcQ" (by decide),
    (c10_video_id_shape_and_400 "???").2 ⟨some pOne, [], "key"⟩
      (fun _ => .ok []) pOne rfl⟩

/-!
## Training (src/train.py) and the startup load-or-train path
(main.py lines 39-83)

Both files run the identical data-loading block: `fileids =
movie_reviews.fileids()`, `documents` maps `movie_reviews.raw` over the
fileids, and the labels map `1 if movie_reviews.categories(fileid)[0] ==
'pos' else 0` over the same fileids.  The NLTK corpus is modelled as the
fileid enumeration plus its `raw` and `categories` accessors; `[0]` on an
empty category list raises `IndexError`, which both callers catch with their
blanket `except`.
-/

/-- The NLTK `movie_reviews` corpus interface used by both trainers. -/
structure Corpus where
  fileids : List String
  raw : String → String
  categories : String → List String

/-- The one way the data-loading block itself can raise: `categories(fileid)[0]`
on an empty list. -/
inductive TrainErr where
  | indexError
  deriving DecidableEq

/-- `1 if movie_reviews.categories(fileid)[0] == 'pos' else 0` for one fileid:
`[0]` raises on an empty category list, otherwise the first category is
compared against `'pos'`. -/
def labelOf (cats : List String) : Except TrainErr Nat :=
  match cats with
  | [] => .error .indexError
  | c :: _ => .ok (if c = "pos" then 1 else 0)

/-- The label list comprehension over the fileid enumeration. -/
def mapLabels (categories : String → List String) :
    List String → Except TrainErr (List Nat)
  | [] => .ok []
  | fid :: rest =>
    match labelOf (categories fid) with
    | .error e => .error e
    | .ok l =>
      match mapLabels categories rest with
      | .error e => .error e
      | .ok ls => .ok (l :: ls)

/-- The data-loading block (train.py lines 21-23, main.py lines 54-65):
documents and sentiments are both derived from the same `fileids`
enumeration. -/
def loadTrainingData (c : Corpus) :
    Except TrainErr (List String × List Nat) :=
  match mapLabels c.categories c.fileids with
  | .error e => .error e
  | .ok labels => .ok (c.fileids.map c.raw, labels)

/-- File system seen by the trainer: path to byte content. -/
def FS : Type := String → Option (List Nat)

/-- Write full content at a path. -/
def setFile (fs : FS) (path : String) (content : List Nat) : FS :=
  fun q => if q = path then some content else fs q

/-- The artifact path, `'sentiment_model.joblib'`. -/
def MODEL_FILE : String := "sentiment_model.joblib"

/-- External behaviour of one trainer run: whether `nltk.download` succeeds,
the corpus it yields, whether `Pipeline.fit` succeeds, the bytes joblib
serializes for the fitted pipeline, and whether/where `dump` fails
(`dumpCrashAt = some k` means the truncating write stops after `k` bytes and
raises). -/
structure TrainEnv where
  downloadOk : Bool
  corpus : Corpus
  fitOk : Bool
  serialized : List Nat
  dumpCrashAt : Option Nat

/-- Result of running `python train.py`: the final file system and the
process exit code (1 via the `except` handler's `exit(1)`, otherwise 0). -/
structure TrainRun where
  fs : FS
  exitCode : Nat

/-- `train_and_save_model` (train.py lines 11-42): download, load data, fit,
then `dump(model_pipeline, 'sentiment_model.joblib')`; any exception in the
block is caught and turns into `exit(1)`.  `dump` opens the artifact path for
writing (truncating it) and writes the serialized bytes in place, so a dump
failure leaves the prefix written so far at the path. -/
def train_and_save_model (env : TrainEnv) (fs : FS) : TrainRun :=
  if !env.downloadOk then ⟨fs, 1⟩
  else
    match loadTrainingData env.corpus with
    | .error _ => ⟨fs, 1⟩
    | .ok _ =>
      if !env.fitOk then ⟨fs, 1⟩
      else
        match env.dumpCrashAt with
        | none => ⟨setFile fs MODEL_FILE env.serialized, 0⟩
        | some k => ⟨setFile fs MODEL_FILE (env.serialized.take k), 1⟩

/-- How the module-level `load(MODEL_FILE)` at main.py line 41 ends: a loaded
pipeline, a `FileNotFoundError`, or any other exception (e.g. a corrupt
artifact). -/
inductive LoadResult where
  | found (p : String → Except String Nat)
  | fileNotFound
  | otherError

/-- External behaviour of the inline cold-start trainer of main.py lines
44-83: download, corpus, fit and dump outcomes, plus the fitted pipeline
obtained when everything succeeds. -/
structure ColdEnv where
  downloadOk : Bool
  corpus : Corpus
  fitOk : Bool
  dumpOk : Bool
  fitted : String → Except String Nat

/-- Whether the body of the inner `try` of main.py lines 45-79 runs to
completion (download, data loading, fit and dump all succeed). -/
def coldTrainSuccess (env : ColdEnv) : Bool :=
  env.downloadOk
    && (match loadTrainingData env.corpus with | .ok _ => true | .error _ => false)
    && env.fitOk && env.dumpOk

/-- How the module import of main.py ends. -/
inductive StartupOutcome where
  | running (sentiment_pipeline : Option (String → Except String Nat))
  | crashed

/-- The `sentiment_pipeline` initialization of main.py lines 37-83, paired
with whether the cold-start trainer was entered: a successful `load` installs
the artifact; `FileNotFoundError` enters the inline trainer, whose own
failure is caught and leaves `sentiment_pipeline = None`; any other load
exception is uncaught at import time and the process fails to start. -/
def startupLoadOrTrain (lr : LoadResult) (env : ColdEnv) :
    StartupOutcome × Bool :=
  match lr with
  | .found p => (.running (some p), false)
  | .fileNotFound =>
    if coldTrainSuccess env then (.running (some env.fitted), true)
    else (.running none, true)
  | .otherError => (.crashed, false)

theorem labelOf_ok_ne_nil (cats : List String) (l : Nat)
    (h : labelOf cats = .ok l) : cats ≠ [] := by
  intro hc
  rw [hc] at h
  cases h

theorem labelOf_error_nil (cats : List String)
    (h : labelOf cats = .error .indexError) : cats = [] := by
  cases cats with
  | nil => rfl
  | cons c cs => unfold labelOf at h; cases h

theorem mapLabels_error_of_empty (cats : String → List String)
    (fids : List String) (fid : String) (hm : fid ∈ fids)
    (hc : cats fid = []) : mapLabels cats fids = .error .indexError := by
  induction fids with
  | nil => cases hm
  | cons f rest ih =>
    unfold mapLabels
    rcases List.mem_cons.mp hm with hf | hr
    · subst hf
      rw [hc]
      rfl
    · cases hl : labelOf (cats f) with
      | error e => cases e; rfl
      | ok l => rw [ih hr]

theorem mapLabels_ok_facts (cats : String → List String)
    (fids : List String) (labels : List Nat)
    (h : mapLabels cats fids = .ok labels) :
    labels.length = fids.length ∧
    (∀ fid ∈ fids, cats fid ≠ []) ∧
    (∀ l ∈ labels, l = 0 ∨ l = 1) := by
  induction fids generalizing labels with
  | nil =>
    unfold mapLabels at h
    cases h
    simp
  | cons f rest ih =>
    unfold mapLabels at h
    cases hl : labelOf (cats f) with
    | error e => rw [hl] at h; cases h
    | ok l =>
      rw [hl] at h
      cases hr : mapLabels cats rest with
      | error e => rw [hr] at h; cases h
      | ok ls =>
        rw [hr] at h
        cases h
        obtain ⟨ihlen, ihne, ihrange⟩ := ih ls hr
        refine ⟨by simp [ihlen], ?_, ?_⟩
        · intro fid hfid
          rcases List.mem_cons.mp hfid with hf | hmem
          · rw [hf]; exact labelOf_ok_ne_nil _ _ hl
          · exact ihne fid hmem
        · intro x hx
          rcases List.mem_cons.mp hx with hxl | hmem
          · subst hxl
            cases hcf : cats f with
            | nil => exact absurd hcf (labelOf_ok_ne_nil _ _ hl)
            | cons c cs =>
              rw [hcf] at hl
              simp only [labelOf] at hl
              by_cases hcp : c = "pos"
              · rw [if_pos hcp] at hl; cases hl; right; rfl
              · rw [if_neg hcp] at hl; cases hl; left; rfl
          · exact ihrange x hmem

/-- A corpus whose single document carries two category labels. -/
def corpusMulti : Corpus :=
  ⟨["doc1"], fun _ => "a fine movie", fun _ => ["pos", "neg"]⟩

/-- A corpus whose single document carries no label at all. -/
def corpusNoLabel : Corpus := ⟨["bad"], fun _ => "some text", fun _ => []⟩

/-- A well-formed one-document corpus. -/
def corpusGood : Corpus := ⟨["r1"], fun _ => "a good film", fun _ => ["pos"]⟩

/-- An empty file system. -/
def fsEmpty : FS := fun _ => none

/-- A trainer environment whose corpus is `corpusMulti` and in which every
external step succeeds. -/
def envMulti : TrainEnv := ⟨true, corpusMulti, true, [7, 7], none⟩

/-- Claim C7 counterexample: document "doc1" has two associated labels, yet
training neither raises a `DataIntegrityError` (no such failure exists in the
code) nor fails at all — the data loader silently keeps the first label and
the trainer finishes with exit code 0. -/
theorem c7_counterexample :
    (corpusMulti.categories "doc1").length = 2 ∧
    "doc1" ∈ corpusMulti.fileids ∧
    loadTrainingData corpusMulti = .ok (["a fine movie"], [1]) ∧
    (train_and_save_model envMulti fsEmpty).exitCode = 0 :=
  ⟨rfl, by decide, rfl, rfl⟩

/-- Claim C7 (amended): the data-loading block fails — with a generic
`IndexError` swallowed by the blanket handler, not a typed
`DataIntegrityError` — exactly when some document has zero associated labels;
a document with more than one label does not fail (its first label is used);
and on success the document count always equals the label count, both being
derived from the same fileid enumeration. -/
theorem c7_amended_failure_on_zero_labels (c : Corpus) :
    ((∃ fid ∈ c.fileids, c.categories fid = []) →
      loadTrainingData c = .error .indexError) ∧
    (∀ docs labels, loadTrainingData c = .ok (docs, labels) →
      docs.length = labels.length ∧ ∀ fid ∈ c.fileids, c.categories fid ≠ []) := by
  constructor
  · rintro ⟨fid, hmem, hc⟩
    unfold loadTrainingData
    rw [mapLabels_error_of_empty c.categories c.fileids fid hmem hc]
  · intro docs labels h
    unfold loadTrainingData at h
    cases hm : mapLabels c.categories c.fileids with
    | error e => rw [hm] at h; cases h
    | ok ls =>
      rw [hm] at h
      cases h
      obtain ⟨hlen, hne, _⟩ := mapLabels_ok_facts _ _ _ hm
      exact ⟨by simp [hlen], hne⟩

theorem c7_witness :
    loadTrainingData corpusNoLabel = .error .indexError :=
  (c7_amended_failure_on_zero_labels corpusNoLabel).1 ⟨"bad", by decide, rfl⟩

/-- Claim C9: the label mapping is a fixed function of the raw category:
`'pos'` maps to 1, `'neg'` maps to 0, and every label that training produces
— per item and across a whole corpus enumeration — lies in `{0, 1}`. -/
theorem c9_label_mapping :
    (∀ rest, labelOf ("pos" :: rest) = .ok 1) ∧
    (∀ rest, labelOf ("neg" :: rest) = .ok 0) ∧
    (∀ cats l, labelOf cats = .ok l → l = 0 ∨ l = 1) ∧
    (∀ (categories : String → List String) (fids : List String)
      (labels : List Nat), mapLabels categories fids = .ok labels →
        ∀ l ∈ labels, l = 0 ∨ l = 1) := by
  refine ⟨fun rest => rfl, fun rest => rfl, ?_, ?_⟩
  · intro cats l h
    cases cats with
    | nil => cases h
    | cons c cs =>
      simp only [labelOf] at h
      by_cases hcp : c = "pos"
      · rw [if_pos hcp] at h; cases h; right; rfl
      · rw [if_neg hcp] at h; cases h; left; rfl
  · intro categories fids labels h
    exact (mapLabels_ok_facts categories fids labels h).2.2

theorem c9_witness :
    labelOf ["pos"] = .ok 1 ∧ labelOf ["neg"] = .ok 0 ∧ (1 = 0 ∨ 1 = 1) :=
  ⟨c9_label_mapping.1 [], c9_label_mapping.2.1 [],
    c9_label_mapping.2.2.1 ["pos"] 1 (c9_label_mapping.1 [])⟩

/-- Claim C5: when loading the artifact raises `FileNotFoundError`, the
service falls back to the inline trainer synchronously; if that load-or-train
path then fails for any reason, `sentiment_pipeline` is left as `None` and
the process keeps starting up (it does not crash). -/
theorem c5_cold_start_fallback (env : ColdEnv) :
    (startupLoadOrTrain .fileNotFound env).2 = true ∧
    (startupLoadOrTrain .fileNotFound env).1 ≠ .crashed ∧
    (coldTrainSuccess env = false →
      (startupLoadOrTrain .fileNotFound env).1 = .running none) := by
  unfold startupLoadOrTrain
  by_cases h : coldTrainSuccess env = true
  · simp [h]
  · simp [Bool.not_eq_true] at h
    simp [h]

/-- A cold-start environment whose NLTK download fails. -/
def envColdFail : ColdEnv := ⟨false, corpusGood, true, true, pOne⟩

theorem c5_witness :
    (startupLoadOrTrain .fileNotFound envColdFail).1 = .running none :=
  (c5_cold_start_fallback envColdFail).2.2 rfl

/-- A trainer environment whose dump fails after writing one byte of the
two-byte artifact, over a file system already holding a prior artifact. -/
def envCrash : TrainEnv := ⟨true, corpusGood, true, [7, 7], some 1⟩

/-- The prior artifact on disk before the failing run. -/
def fsOld : FS := fun q => if q = MODEL_FILE then some [5, 5, 5] else none

/-- Claim C8 counterexample: the trainer does exit non-zero when `dump`
fails, but persistence is not atomic — after the failed run the artifact path
holds the one-byte truncation `[7]`, which is neither the prior artifact
`[5, 5, 5]` nor the new artifact `[7, 7]`: a partial model is left in place.
-/
theorem c8_counterexample :
    (train_and_save_model envCrash fsOld).exitCode = 1 ∧
    fsOld MODEL_FILE = some [5, 5, 5] ∧
    envCrash.serialized = [7, 7] ∧
    (train_and_save_model envCrash fsOld).fs MODEL_FILE = some [7] ∧
    (train_and_save_model envCrash fsOld).fs MODEL_FILE ≠ fsOld MODEL_FILE ∧
    (train_and_save_model envCrash fsOld).fs MODEL_FILE
      ≠ some envCrash.serialized := by
  refine ⟨rfl, by decide, rfl, by decide, by decide, by decide⟩

/-- Claim C8 (amended): the offline trainer exits with status 1 on any
failure and status 0 only when every step succeeded, in which case the new
artifact is fully written; paths other than the artifact path are never
touched; but the write is a direct in-place truncation, so a failing dump
leaves the prefix written so far at the artifact path (no atomicity). -/
theorem c8_amended_exit_and_truncation (env : TrainEnv) (fs : FS) :
    ((train_and_save_model env fs).exitCode = 0 ∨
      (train_and_save_model env fs).exitCode = 1) ∧
    ((train_and_save_model env fs).exitCode = 0 →
      (train_and_save_model env fs).fs MODEL_FILE = some env.serialized ∧
      env.dumpCrashAt = none) ∧
    ((env.downloadOk = false ∨
        (∃ e, loadTrainingData env.corpus = .error e) ∨
        env.fitOk = false ∨ (∃ k, env.dumpCrashAt = some k)) →
      (train_and_save_model env fs).exitCode = 1) ∧
    (∀ k, env.dumpCrashAt = some k → env.downloadOk = true →
      env.fitOk = true →
      ∀ r, loadTrainingData env.corpus = .ok r →
        (train_and_save_model env fs).exitCode = 1 ∧
        (train_and_save_model env fs).fs MODEL_FILE
          = some (env.serialized.take k)) ∧
    (∀ p, p ≠ MODEL_FILE → (train_and_save_model env fs).fs p = fs p) := by
  unfold train_and_save_model
  cases hd : env.downloadOk with
  | false => simp
  | true =>
    cases hl : loadTrainingData env.corpus with
    | error e => simp
    | ok dl =>
      cases hf : env.fitOk with
      | false => simp
      | true =>
        cases hdc : env.dumpCrashAt with
        | none =>
          refine ⟨Or.inl rfl, fun _ => ⟨?_, rfl⟩, ?_, by simp, ?_⟩
          · simp [setFile]
          · rintro (h | ⟨e, he⟩ | h | ⟨k, hk⟩) <;> simp_all
          · intro p hp
            simp [setFile, hp]
        | some k =>
          refine ⟨Or.inr rfl, by simp, fun _ => rfl, ?_, ?_⟩
          · intro k' hk' _ _ r hr
            cases hk'
            exact ⟨rfl, by simp [setFile]⟩
          · intro p hp
            simp [setFile, hp]

/-- A trainer environment in which every step succeeds. -/
def envGood : TrainEnv := ⟨true, corpusGood, true, [7, 7], none⟩

/-- A trainer environment whose NLTK download fails before anything else. -/
def envNoDownload : TrainEnv := ⟨false, corpusGood, true, [7, 7], none⟩

theorem c8_witness :
    ((train_and_save_model envGood fsEmpty).fs MODEL_FILE
        = some envGood.serialized ∧
      envGood.dumpCrashAt = none) ∧
    (train_and_save_model envNoDownload fsEmpty).exitCode = 1 :=
  ⟨(c8_amended_exit_and_truncation envGood fsEmpty).2.1 rfl,
    (c8_amended_exit_and_truncation envNoDownload fsEmpty).2.2.1 (Or.inl rfl)⟩
